import Mathlib

/-!
Verification of the Smart Media Update Pipeline of the bonsai-garden-game
repository, shallowly embedded in Lean 4.

The embedding follows the TypeScript sources:
  - packages/client-bonsai/src/ClientService.ts
      (BonsaiClient.handlePreviewCredits, BonsaiClient.handlePostUpdate,
       the POST /post/:postId/update route handler)
  - packages/client-bonsai/src/templates/bonsaiGarden.ts
      (the bonsaiGarden template handler: weighted votes, image retry loop)
  - packages/core/src/generation.ts
      (trimTokens, truncateTiktoken, generateObjectDeprecated, generateImage)

Conventions of the embedding:
  - JavaScript `undefined`/`null` fields become `Option` values.
  - Redis/Mongo side effects become explicit effect records returned by the
    step functions.
  - External collaborators (redis counters, credit balance checks, the lens
    refresh service, the provider network calls) become oracle parameters.
-/

namespace Bonsai

/-- Status of a smart media post, from SmartMediaStatus in utils/types.ts. -/
inductive SmartMediaStatus
  | ACTIVE
  | FAILED
  | DISABLED
  deriving DecidableEq, Repr

/-!
Part: CreditLedger: BonsaiClient.handlePreviewCredits (ClientService.ts lines 586-613)

The JavaScript reads the per-creator hourly counter from redis
(`create_preview_count:creator`); a missing key yields `null`.  The guard is

    if (previewCount && Number.parseInt(previewCount) < FREE_GENERATIONS_PER_HOUR)

where `previewCount` is a string or `null`; `null` is falsy, so a missing key
skips the free-tier branch and falls through to the paid `decrementCredits`
call.  The counter is only ever incremented inside the guarded branch.
-/

/-- Effects of one handlePreviewCredits call: whether the hourly free counter
was incremented, the counter value left in redis, and whether a paid credit
debit (decrementCredits) occurred. -/
structure PreviewCreditEffects where
  counterIncremented : Bool
  counterAfter : Option Nat
  debited : Bool
  deriving DecidableEq, Repr

/-- JavaScript truthiness test on the redis read: a missing key reads as
`null`, which is falsy, so only a present counter strictly below the cap
passes the guard. -/
def previewBelowCap (previewCount : Option Nat) (cap : Nat) : Bool :=
  match previewCount with
  | some n => n < cap
  | none => false

/-- Embedding of BonsaiClient.handlePreviewCredits.  `premiumTemplate` is
`PREMIUM_TEMPLATES.includes(templateName)`; `previewCount` is the redis read
(`none` when the key is absent); `cap` is FREE_GENERATIONS_PER_HOUR.  When a
present counter is strictly below the cap the free branch runs
(incr + expire, no debit); every other case falls through to
decrementCredits. -/
def handlePreviewCredits (premiumTemplate : Bool) (previewCount : Option Nat)
    (cap : Nat) : PreviewCreditEffects :=
  if !premiumTemplate && previewBelowCap previewCount cap then
    { counterIncremented := true
      counterAfter := some (previewCount.getD 0 + 1)
      debited := false }
  else
    { counterIncremented := false
      counterAfter := previewCount
      debited := true }

/-- The redis counter state after k consecutive previews by a creator who
starts the hour with no counter key (0 previews so far). -/
def previewCounterAfter (cap : Nat) : Nat → Option Nat
  | 0 => none
  | k + 1 => (handlePreviewCredits false (previewCounterAfter cap k) cap).counterAfter

/-!
Part: SmartMedia data model (utils/types.ts) and the orchestrator
   BonsaiClient.handlePostUpdate (ClientService.ts lines 453-570)
-/

/-- Usage accumulator shape of a handler response (TemplateUsage in
utils/types.ts).  `promptTokens`, `completionTokens` and `totalTokens` are
required by the LanguageModelUsage shape; `imagesCreated` is declared
optional, and `videosCreated` is not declared in the TypeScript type at all
even though handlePostUpdate reads it, so both are Options here
(`none` models a field that is absent, i.e. `undefined`). -/
structure TemplateUsage where
  promptTokens : Nat
  completionTokens : Nat
  totalTokens : Nat
  imagesCreated : Option Nat
  videosCreated : Option Nat
  deriving DecidableEq, Repr

/-- The slice of a TemplateHandlerResponse that handlePostUpdate inspects.
`metadata` records whether a metadata object is present. -/
structure HandlerResponse where
  metadata : Bool
  refreshMetadata : Bool
  refreshCache : Bool
  persistVersionUri : Option String
  updatedTemplateData : Option String
  totalUsage : TemplateUsage
  deriving DecidableEq, Repr

/-- The persisted smart media record (SmartMedia in utils/types.ts).
`versions`, `versionCount` and `status` are optional because the redis-cached
copy stores them as `undefined` while the mongo document carries them. -/
structure SmartMedia where
  postId : String
  creator : String
  templateData : String
  updatedAt : Nat
  versions : Option (List String)
  versionCount : Option Nat
  status : Option SmartMediaStatus
  deriving DecidableEq, Repr

/-- One field of the `$set` part of a mongo update document.  The JavaScript
builds `update.$set` by plain assignment, so a later assignment replaces the
whole `$set` object; the embedding keeps at most one set field for the same
reason. -/
inductive SetField
  | versionCount (n : Nat)
  | status (s : SmartMediaStatus)
  deriving DecidableEq, Repr

/-- A mongo update document as built by handlePostUpdate: an optional
`$push: { versions: uri }` and an optional `$set` (a single field, see
SetField). -/
structure UpdateDoc where
  pushVersion : Option String
  setField : Option SetField
  deriving DecidableEq, Repr

/-- Embedding of ClientService.ts lines 511-526.  Mirrors

    const needsStatusUpdate = data.status === DISABLED || data.status === FAILED;
    const hasNewVersion = !!response.persistVersionUri;
    if (needsStatusUpdate || hasNewVersion) {
      const update = {};
      if (hasNewVersion) {
        update.$push = { versions: response.persistVersionUri };
        update.$set = { versionCount: (data.versionCount || 0) + 1 };
      }
      if (needsStatusUpdate) {
        update.$set = { status: ACTIVE };   // replaces any prior $set
      }
      await this.mongo.media?.updateOne({ postId }, update);
    }

returning `none` when no updateOne call happens. -/
def mongoUpdateFor (data : SmartMedia) (r : HandlerResponse) : Option UpdateDoc :=
  let needsStatusUpdate : Bool :=
    data.status = some SmartMediaStatus.DISABLED ∨ data.status = some SmartMediaStatus.FAILED
  let hasNewVersion : Bool := r.persistVersionUri.isSome
  if needsStatusUpdate || hasNewVersion then
    let u0 : UpdateDoc := { pushVersion := none, setField := none }
    let u1 : UpdateDoc :=
      if hasNewVersion then
        { u0 with
          pushVersion := r.persistVersionUri
          setField := some (SetField.versionCount (data.versionCount.getD 0 + 1)) }
      else u0
    let u2 : UpdateDoc :=
      if needsStatusUpdate then { u1 with setField := some (SetField.status SmartMediaStatus.ACTIVE) }
      else u1
    some u2
  else
    none

/-- How mongo applies an update document to the stored record: `$push`
appends to the versions array, `$set` writes the single field it carries. -/
def applyUpdateDoc (m : SmartMedia) (u : UpdateDoc) : SmartMedia :=
  let m1 :=
    match u.pushVersion with
    | some uri => { m with versions := some (m.versions.getD [] ++ [uri]) }
    | none => m
  match u.setField with
  | some (SetField.versionCount n) => { m1 with versionCount := some n }
  | some (SetField.status s) => { m1 with status := some s }
  | none => m1

/-- Zero-usage test of ClientService.ts line 499, mirroring

    !response.refreshMetadata && response.totalUsage.promptTokens === 0
      && response.totalUsage.imagesCreated === 0
      && response.totalUsage.videosCreated === 0

Strict equality `undefined === 0` is false, so an absent `imagesCreated` or
`videosCreated` field makes the test fail (the response is then treated as
usable). -/
def unusableResponse (r : HandlerResponse) : Bool :=
  !r.refreshMetadata && r.totalUsage.promptTokens = 0 &&
    r.totalUsage.imagesCreated = some 0 && r.totalUsage.videosCreated = some 0

/-- Observable effects of one handlePostUpdate run.  `statusWrite` records a
direct `updateOne` with only a status `$set` (the deleted-post freeze, the
no-response or no-update freeze, and the refresh-failure freeze); `dbUpdate`
is the conditional version/status update of lines 515-526; `cacheWrite` is
the final redis cachePost payload. -/
structure UpdateEffects where
  handlerInvoked : Bool
  statusWrite : Option SmartMediaStatus
  removedFromCache : Bool
  dbUpdate : Option UpdateDoc
  creditsDebited : Bool
  refreshRequested : Bool
  cacheWrite : Option SmartMedia
  deriving DecidableEq, Repr

/-- Effects of a run that returns before doing anything. -/
def noEffects : UpdateEffects :=
  { handlerInvoked := false
    statusWrite := none
    removedFromCache := false
    dbUpdate := none
    creditsDebited := false
    refreshRequested := false
    cacheWrite := none }

/-- Embedding of BonsaiClient.handlePostUpdate (ClientService.ts lines
453-570).  `freezeTime` is DEFAULT_FREEZE_TIME (utils/constants.ts, not part
of the visible sources, so it stays a parameter); `now` is
`Math.floor(Date.now() / 1000)`; `data` is the getPost read; `postDeleted`
is `fetchPostById(postId)?.isDeleted`; `canAfford` is the `canUpdate` oracle;
`response` is the template handler result (`none` when the handler returned
nothing); `refreshFails` tells whether the lens metadata refresh reports
FAILED. -/
def handlePostUpdate (freezeTime now : Nat) (data : Option SmartMedia)
    (templateRegistered postDeleted canAfford : Bool)
    (response : Option HandlerResponse) (refreshFails : Bool) : UpdateEffects :=
  match data with
  | none => noEffects
  | some data =>
    if !templateRegistered then noEffects
    else if postDeleted then
      { noEffects with
        statusWrite := some SmartMediaStatus.DISABLED
        removedFromCache := true }
    else if !canAfford then noEffects
    else
      match response with
      | none =>
        if now - data.updatedAt > freezeTime then
          { noEffects with
            handlerInvoked := true
            statusWrite := some SmartMediaStatus.FAILED
            removedFromCache := true }
        else
          { noEffects with handlerInvoked := true }
      | some r =>
        if unusableResponse r then
          if now - data.updatedAt > freezeTime then
            { noEffects with
              handlerInvoked := true
              statusWrite := some SmartMediaStatus.FAILED
              removedFromCache := true }
          else
            { noEffects with handlerInvoked := true }
        else
          let du := mongoUpdateFor data r
          if !(r.metadata || r.refreshMetadata) && !r.refreshCache then
            { noEffects with
              handlerInvoked := true
              dbUpdate := du
              creditsDebited := true }
          else if (r.metadata || r.refreshMetadata) && refreshFails then
            { noEffects with
              handlerInvoked := true
              dbUpdate := du
              creditsDebited := true
              refreshRequested := true
              statusWrite := some SmartMediaStatus.FAILED }
          else
            { noEffects with
              handlerInvoked := true
              dbUpdate := du
              creditsDebited := true
              refreshRequested := r.metadata || r.refreshMetadata
              cacheWrite := some
                { data with
                  templateData := r.updatedTemplateData.getD data.templateData
                  updatedAt := now
                  versions := none
                  versionCount := some (data.versionCount.getD 0 + 1)
                  status := none } }

/-- Result of the POST /post/:postId/update route handler. -/
structure RouteResult where
  httpStatus : Nat
  enqueued : Bool
  deriving DecidableEq, Repr

/-- Embedding of the POST /post/:postId/update route handler
(ClientService.ts lines 338-374): a busy task queue answers 204; a missing
post 404; a forced update by a requester other than the recorded creator
401; an admission failure 403; otherwise the update job is added to the
task queue and the route answers 200.  The persisted status of the post is
never consulted. -/
def updatePostRoute (isProcessing : Bool) (data : Option SmartMedia)
    (forceUpdate : Bool) (requester : String) (canAfford : Bool) : RouteResult :=
  if isProcessing then { httpStatus := 204, enqueued := false }
  else
    match data with
    | none => { httpStatus := 404, enqueued := false }
    | some d =>
      if forceUpdate && requester ≠ d.creator then { httpStatus := 401, enqueued := false }
      else if !canAfford then { httpStatus := 403, enqueued := false }
      else { httpStatus := 200, enqueued := true }

/-!
Part: GenerationDispatcher: generateObjectDeprecated
   (packages/core/src/generation.ts lines 1687-1754)

The function loops forever: each iteration calls generateText and tries
parseJSONObjectFromText on the reply; a parsed object is returned at once,
while a provider error or a failed parse falls through to
`await setTimeout(retryDelay)` followed by `retryDelay *= 2`, with
`retryDelay` starting at 1000.  The outcome of attempt number i is modelled
by an oracle list: `some a` when generateText succeeded and the local parse
produced `a`, `none` when the attempt failed (provider error or parse
failure).  The loop is unbounded, so the embedding recurses on the oracle
list; an exhausted list means the loop is still running (`none`), which is
how the absence of an attempt bound is stated. -/

/-- One pass of the generateObjectDeprecated retry loop, accumulating the
waits performed between attempts.  Returns the parsed object of the first
successful attempt together with the list of waits (in milliseconds) that
preceded it, or `none` when every listed attempt failed (the real loop would
still be running). -/
def generateObjectLoop {α : Type} (attempts : List (Option α)) (retryDelay : Nat) :
    Option (α × List Nat) :=
  match attempts with
  | [] => none
  | a :: rest =>
    match a with
    | some parsed => some (parsed, [])
    | none =>
      match generateObjectLoop rest (retryDelay * 2) with
      | some (parsed, waits) => some (parsed, retryDelay :: waits)
      | none => none

/-- Embedding of generateObjectDeprecated: the guard
`if (!context && messages.length === 0) return null` answers `none` without
retrying; otherwise the retry loop starts with retryDelay = 1000. -/
def generateObjectDeprecated {α : Type} (context : String) (messages : List String)
    (attempts : List (Option α)) : Option (α × List Nat) :=
  if context = "" && messages.length = 0 then none
  else generateObjectLoop attempts 1000

/-!
Part: Template handler bonsaiGarden: the image generation retry loop
   (templates/bonsaiGarden.ts, inside the handler, lines with
    MAX_ATTEMPTS = 2)

    let attempts = 0;
    const MAX_ATTEMPTS = 2;
    while (attempts < MAX_ATTEMPTS) {
      ... imageResponse = await generateImage(...);
      totalUsage.imagesCreated += 1;
      if (imageResponse.success) break;
      attempts++;
    }
    if (!imageResponse.success) {
      throw new Error("Failed to generate hero image after multiple attempts");
    }

The throw lands in the catch block of the handler, which logs and returns
undefined, so the orchestrator sees no handler result.  `callSucceeds i`
tells whether generateImage call number i (0-based) reports success. -/

/-- Maximum number of image generation attempts in the bonsaiGarden
handler. -/
def MAX_ATTEMPTS : Nat := 2

/-- The while loop over `attempts < MAX_ATTEMPTS`, with `remaining` the
attempts still allowed and `calls` the number of generateImage calls already
made.  Returns the total number of generateImage calls and whether the last
one succeeded. -/
def imageGenLoop (callSucceeds : Nat → Bool) : Nat → Nat → Nat × Bool
  | 0, calls => (calls, false)
  | remaining + 1, calls =>
    if callSucceeds calls then (calls + 1, true)
    else imageGenLoop callSucceeds remaining (calls + 1)

/-- The image generation phase of the bonsaiGarden handler: run the bounded
loop from zero calls. -/
def bonsaiGardenImagePhase (callSucceeds : Nat → Bool) : Nat × Bool :=
  imageGenLoop callSucceeds MAX_ATTEMPTS 0

/-- Outcome of the handler after the loop: on success the handler continues
(carrying the call count here), otherwise the `throw` is caught by the
handler and the handler yields no result. -/
def bonsaiGardenImageResult (callSucceeds : Nat → Bool) : Option Nat :=
  let r := bonsaiGardenImagePhase callSucceeds
  if r.2 then some r.1 else none

/-!
Part: Template handler bonsaiGarden: weighted votes
   (templates/bonsaiGarden.ts, the commentsWeighted block)

    const commentsWeighted = await Promise.all(comments.map(async (comment) => {
      let voters = await fetchAllUpvotersFor(comment.id);
      voters.push(comment.author.address);
      voters = uniq(voters);
      voters = voters.filter((account) => allCollectors.includes(account));
      if (!media?.token?.address) {
        return { content, votes: voters.length };
      }
      const balances = await balanceOfBatched(..., voters, ...);
      return { content, votes: balances.reduce((acc, b) => acc + getVoteWeightFromBalance(b), 0) };
    }));
    ...
    const topComment = orderBy(commentsWeighted, "votes", "desc")[0].content;

getVoteWeightFromBalance lives in utils/utils.ts, outside the visible
sources, so it stays an abstract parameter; balanceOfBatched becomes the
oracle `balanceOf`. -/

/-- A lens comment as the weighting code reads it: its author address, the
addresses that up-voted it, and its text content. -/
structure Comment where
  author : String
  upvoters : List String
  content : String
  deriving DecidableEq, Repr

/-- Embedding of lodash uniq: keep the first occurrence of every element,
preserving order. -/
def uniqJs : List String → List String
  | [] => []
  | x :: xs => x :: uniqJs (xs.filter (fun y => y ≠ x))
termination_by l => l.length
decreasing_by
  simp only [List.length_cons]
  exact Nat.lt_succ_of_le (List.length_filter_le _ _)

/-- The qualifying voter list of a comment: its up-voters with the author
appended, deduplicated, restricted to collectors (following the code line by
line). -/
def qualifyingVoters (collectors : List String) (c : Comment) : List String :=
  (uniqJs (c.upvoters ++ [c.author])).filter (fun account => collectors.contains account)

/-- A comment together with its computed vote weight. -/
structure WeightedComment where
  content : String
  votes : Nat
  deriving DecidableEq, Repr

/-- Embedding of the per-comment weighting: without an associated token each
qualifying voter counts 1 (`voters.length`); with a token the weight is the
reduce of getVoteWeightFromBalance over the fetched balances. -/
def weighComment (collectors : List String) (hasToken : Bool)
    (balanceOf : String → Nat) (getVoteWeightFromBalance : Nat → Nat)
    (c : Comment) : WeightedComment :=
  let voters := qualifyingVoters collectors c
  if !hasToken then
    { content := c.content, votes := voters.length }
  else
    let balances := voters.map balanceOf
    { content := c.content
      votes := balances.foldl (fun acc b => acc + getVoteWeightFromBalance b) 0 }

/-- Specification-side qualifying voter set, written from the words of the
spec: the author of the comment plus all distinct up-voters, deduplicated,
restricted to addresses present in the collectors set. -/
def qualifyingVoterSet (collectors : List String) (c : Comment) : Finset String :=
  (insert c.author c.upvoters.toFinset) ∩ collectors.toFinset

/-- Specification-side weight of a comment: the number of qualifying voters
when no token is associated, and otherwise the sum over qualifying voters of
getVoteWeightFromBalance applied to the balance of each voter. -/
def weighCommentSpec (collectors : List String) (hasToken : Bool)
    (balanceOf : String → Nat) (getVoteWeightFromBalance : Nat → Nat)
    (c : Comment) : Nat :=
  if !hasToken then (qualifyingVoterSet collectors c).card
  else Finset.sum (qualifyingVoterSet collectors c)
    (fun v => getVoteWeightFromBalance (balanceOf v))

/-- Insertion step of a stable descending sort on votes: an element moves
past exactly the entries with strictly more votes, so order is preserved
among equal weights, like the stable lodash orderBy. -/
def insertByVotesDesc (x : WeightedComment) : List WeightedComment → List WeightedComment
  | [] => [x]
  | y :: ys => if y.votes ≤ x.votes then x :: y :: ys else y :: insertByVotesDesc x ys

/-- Embedding of lodash orderBy(commentsWeighted, "votes", "desc"): a stable
sort descending by votes. -/
def orderByVotesDesc (l : List WeightedComment) : List WeightedComment :=
  l.foldr insertByVotesDesc []

/-- The handler picks element [0] of the descending order: the comment with
the highest weight (earliest on ties). -/
def topComment (l : List WeightedComment) : Option WeightedComment :=
  (orderByVotesDesc l).head?

/-!
Part: GenerationDispatcher: trimTokens and truncateTiktoken
   (packages/core/src/generation.ts lines 102-187)
-/

/-- An abstract tokenizer: encodingForModel gives an encode/decode pair.
The oracle `encFor` below returns `none` for a model whose tokenization
throws. -/
structure Encoding where
  encode : String → List Nat
  decode : List Nat → String

/-- JavaScript `s.slice(-n)` for a positive n: the last n characters of s
(all of s when n exceeds its length). -/
def jsSliceLast (s : String) (n : Nat) : String :=
  String.mk (s.data.drop (s.data.length - n))

/-- Embedding of truncateTiktoken: when the tokenizer works, a context of at
most maxTokens tokens is returned unchanged, a longer one is re-decoded from
`tokens.slice(-maxTokens)` (the last maxTokens tokens); when tokenization
throws (`enc = none`), the catch block returns
`context.slice(-maxTokens * 4)`. -/
def truncateTiktoken (enc : Option Encoding) (context : String) (maxTokens : Nat) :
    String :=
  match enc with
  | none => jsSliceLast context (maxTokens * 4)
  | some e =>
    let tokens := e.encode context
    if tokens.length ≤ maxTokens then context
    else e.decode (tokens.drop (tokens.length - maxTokens))

/-- Choice of tiktoken model in trimTokens: with both settings present and a
TikToken tokenizer type the configured model is used; any other
configuration (absent settings or an unsupported type) falls back to
gpt-4o. -/
def tiktokenModelFor (tokenizerModel tokenizerType : Option String) : String :=
  match tokenizerModel, tokenizerType with
  | some m, some t => if t = "tiktoken" then m else "gpt-4o"
  | _, _ => "gpt-4o"

/-- Embedding of trimTokens: empty context returns "", a non-positive token
limit throws, and otherwise truncateTiktoken runs on the chosen model
(every branch of the source calls truncateTiktoken). -/
def trimTokens (encFor : String → Option Encoding)
    (tokenizerModel tokenizerType : Option String)
    (context : String) (maxTokens : Nat) : Except String String :=
  if context = "" then Except.ok ""
  else if maxTokens = 0 then Except.error "maxTokens must be positive"
  else Except.ok
    (truncateTiktoken (encFor (tiktokenModelFor tokenizerModel tokenizerType))
      context maxTokens)

/-!
Part: GenerationDispatcher: generateImage
   (packages/core/src/generation.ts lines 1868-2001)

The function always uses the VENICE provider.  Every failure path returns
`{ success: false, error }`; the success path maps each returned base64
string to a data URI, where an empty string makes the map callback throw,
which the enclosing try/catch converts into `{ success: false, error }`.
-/

/-- Outcome of the Venice fetch round-trip, as an oracle: the fetch itself
can throw, `response.json()` can throw, the parsed body can lack an images
array, or it carries a list of base64 strings. -/
inductive VeniceOutcome
  | fetchThrew (e : String)
  | jsonThrew
  | noImagesArray
  | images (l : List String)
  deriving DecidableEq, Repr

/-- Result shape of generateImage:
`{ success: boolean; data?: string[]; error?: any }`. -/
structure ImageResult where
  success : Bool
  data : Option (List String)
  error : Option String
  deriving DecidableEq, Repr

/-- Embedding of generateImage.  `modelSettings` is
getImageModelSettings(VENICE) (its name field), `apiKey` is
process.env.VENICE_API_KEY, and `outcome` is the Venice round-trip
oracle. -/
def generateImage (modelSettings : Option String) (apiKey : Option String)
    (outcome : VeniceOutcome) : ImageResult :=
  match modelSettings with
  | none => { success := false, data := none, error := some "No model settings available" }
  | some _ =>
    match apiKey with
    | none => { success := false, data := none, error := some "VENICE_API_KEY is missing" }
    | some _ =>
      match outcome with
      | VeniceOutcome.fetchThrew e => { success := false, data := none, error := some e }
      | VeniceOutcome.jsonThrew =>
        { success := false, data := none
          error := some "Failed to parse Venice response as JSON" }
      | VeniceOutcome.noImagesArray =>
        { success := false, data := none
          error := some "Invalid response format from Venice AI" }
      | VeniceOutcome.images l =>
        if l.contains "" then
          { success := false, data := none
            error := some "Empty base64 string in Venice AI response" }
        else
          { success := true
            data := some (l.map (fun b => "data:image/png;base64," ++ b))
            error := none }

/-!
Part: Concrete inputs used by the claim evaluations
-/

/-- A stale active post: its updatedAt lies far in the past. -/
def stalePost : SmartMedia :=
  { postId := "0x01-0x2a"
    creator := "0xcafe"
    templateData := "hero-v1"
    updatedAt := 0
    versions := some ["v0"]
    versionCount := some 1
    status := some SmartMediaStatus.ACTIVE }

/-- The zero-usage skip response the registered bonsaiGarden template
returns when the comment threshold is not met:
`return { metadata: undefined, totalUsage }` with totalUsage initialised to
`{ promptTokens: 0, completionTokens: 0, totalTokens: 0, imagesCreated: 0 }`;
the videosCreated field is absent. -/
def bonsaiSkipResponse : HandlerResponse :=
  { metadata := false
    refreshMetadata := false
    refreshCache := false
    persistVersionUri := none
    updatedTemplateData := none
    totalUsage :=
      { promptTokens := 0
        completionTokens := 0
        totalTokens := 0
        imagesCreated := some 0
        videosCreated := none } }

/-- The same zero-usage response with the videosCreated field present and
zero: the only shape the zero-usage test of handlePostUpdate accepts. -/
def allZeroResponse : HandlerResponse :=
  { bonsaiSkipResponse with
    totalUsage := { bonsaiSkipResponse.totalUsage with videosCreated := some 0 } }

/-- A persisted post that has been frozen to FAILED. -/
def failedPost : SmartMedia :=
  { stalePost with status := some SmartMediaStatus.FAILED, versionCount := some 3 }

/-- A persisted post whose creator disabled it. -/
def disabledPost : SmartMedia :=
  { stalePost with status := some SmartMediaStatus.DISABLED }

/-- A usable handler response carrying a new version URI (one image was
generated, as in a successful bonsaiGarden run). -/
def versionResponse : HandlerResponse :=
  { metadata := false
    refreshMetadata := true
    refreshCache := false
    persistVersionUri := some "v4"
    updatedTemplateData := none
    totalUsage :=
      { promptTokens := 12
        completionTokens := 7
        totalTokens := 19
        imagesCreated := some 1
        videosCreated := none } }

/-- A usable handler response with nonzero usage but no version URI (a
bonsaiGarden run whose storj version caching failed). -/
def noVersionResponse : HandlerResponse :=
  { versionResponse with persistVersionUri := none }

end Bonsai

namespace Bonsai

/-- Claim C1: a non-premium creator whose hourly redis counter is absent (0
previews this hour) never takes the free branch: the guard tests the
truthiness of the redis read, a missing key reads as null, so every preview
in the sequence falls through to decrementCredits and the counter is never
initialised — the first preview already debits, contradicting the claimed
FREE_GENERATIONS_PER_HOUR free previews (for every cap and every position k
in the sequence of previews). -/
theorem handlePreviewCredits_zero_previews_always_debits (cap k : Nat) :
    previewCounterAfter cap k = none ∧
    (handlePreviewCredits false (previewCounterAfter cap k) cap).debited = true ∧
    (handlePreviewCredits false (previewCounterAfter cap k) cap).counterIncremented = false := by
  induction k with
  | zero => exact ⟨rfl, rfl, rfl⟩
  | succ n ih =>
    have h1 : previewCounterAfter cap (n + 1) = none := by
      simp only [previewCounterAfter, ih.1]
      rfl
    rw [h1]
    exact ⟨rfl, rfl, rfl⟩

/-- Claim C2: the zero-usage freeze is dead for the registered template.  At
the same instant, far beyond the freeze threshold, the same stale post is
frozen to FAILED when the handler returns nothing, but is left untouched
(no status write, no db update) when the handler returns the bonsaiGarden
zero-usage skip response, because the test
`response.totalUsage.videosCreated === 0` compares an absent field with 0;
only a response that carries videosCreated: 0 explicitly reaches the freeze
branch. -/
theorem handlePostUpdate_skip_response_never_frozen :
    (handlePostUpdate 100 1000 (some stalePost) true false true none false).statusWrite =
      some SmartMediaStatus.FAILED ∧
    (handlePostUpdate 100 1000 (some stalePost) true false true
        (some allZeroResponse) false).statusWrite = some SmartMediaStatus.FAILED ∧
    (handlePostUpdate 100 1000 (some stalePost) true false true
        (some bonsaiSkipResponse) false).statusWrite = none ∧
    (handlePostUpdate 100 1000 (some stalePost) true false true
        (some bonsaiSkipResponse) false).dbUpdate = none ∧
    (handlePostUpdate 100 1000 (some stalePost) true false true
        (some bonsaiSkipResponse) false).creditsDebited = true := by
  refine ⟨?_, ?_, ?_, ?_, ?_⟩ <;> decide

/-- Claim C3 counterexample: a post whose persisted status is DISABLED is
scheduled again by a plain, non-forced update request from an arbitrary
authenticated requester (who is not the creator): the route answers 200 and
enqueues the job, and the run invokes the template handler — no status gate
exists, so the claim that the handler is never invoked again except via a
creator-verified forced update is false. -/
theorem updateRoute_disabled_post_still_scheduled :
    disabledPost.status = some SmartMediaStatus.DISABLED ∧
    "0xsomebody" ≠ disabledPost.creator ∧
    (updatePostRoute false (some disabledPost) false "0xsomebody" true).enqueued = true ∧
    (updatePostRoute false (some disabledPost) false "0xsomebody" true).httpStatus = 200 ∧
    (handlePostUpdate 100 1000 (some disabledPost) true false true
        (some bonsaiSkipResponse) false).handlerInvoked = true := by
  refine ⟨rfl, ?_, ?_, ?_, ?_⟩ <;> decide

/-- Claim C3 (amended): the update pipeline applies no gate on the persisted
DISABLED status — any admitted update request (queue free, post found,
credits sufficient) enqueues the job and the run invokes the handler, forced
or not; a forced update is additionally rejected with 401 whenever the
requester differs from the recorded creator. -/
theorem updateRoute_no_status_gate (d : SmartMedia) (requester : String)
    (freezeTime now : Nat) (resp : Option HandlerResponse) (refreshFails : Bool)
    (hd : d.status = some SmartMediaStatus.DISABLED) :
    (updatePostRoute false (some d) false requester true).enqueued = true ∧
    (handlePostUpdate freezeTime now (some d) true false true resp refreshFails).handlerInvoked
      = true ∧
    (∀ requester2 : String, requester2 ≠ d.creator →
      (updatePostRoute false (some d) true requester2 true).httpStatus = 401 ∧
      (updatePostRoute false (some d) true requester2 true).enqueued = false) := by
  refine ⟨?_, ?_, ?_⟩
  · simp [updatePostRoute]
  · cases resp <;> simp only [handlePostUpdate, noEffects] <;> (repeat' split) <;>
      first | rfl | simp_all
  · intro requester2 hreq
    have : (requester2 ≠ d.creator) = True := eq_true hreq
    constructor <;> simp [updatePostRoute, hreq]

/-- Claim C3 witness for the amended theorem, at the concrete disabled
post. -/
theorem updateRoute_no_status_gate_witness :
    (updatePostRoute false (some disabledPost) false "0xsomebody" true).enqueued = true ∧
    (handlePostUpdate 100 1000 (some disabledPost) true false true
        (some bonsaiSkipResponse) false).handlerInvoked = true :=
  ⟨(updateRoute_no_status_gate disabledPost "0xsomebody" 100 1000
      (some bonsaiSkipResponse) false rfl).1,
   (updateRoute_no_status_gate disabledPost "0xsomebody" 100 1000
      (some bonsaiSkipResponse) false rfl).2.1⟩

/-- In every usable-response branch of handlePostUpdate the conditional
version/status update is exactly mongoUpdateFor. -/
theorem handlePostUpdate_usable_dbUpdate (freezeTime now : Nat) (d : SmartMedia)
    (r : HandlerResponse) (refreshFails : Bool) (hu : unusableResponse r = false) :
    (handlePostUpdate freezeTime now (some d) true false true (some r) refreshFails).dbUpdate
      = mongoUpdateFor d r := by
  simp only [handlePostUpdate, noEffects]
  repeat' split
  all_goals simp_all

/-- When the stored status is FAILED or DISABLED, the update document built
by handlePostUpdate carries the persistVersionUri push (when present) but
its single set field is the status reset, because the later
`update.$set = { status: ACTIVE }` assignment replaces the versionCount
set. -/
theorem mongoUpdateFor_reactivates (d : SmartMedia) (r : HandlerResponse)
    (hs : d.status = some SmartMediaStatus.FAILED ∨
      d.status = some SmartMediaStatus.DISABLED) :
    mongoUpdateFor d r = some
      { pushVersion := r.persistVersionUri
        setField := some (SetField.status SmartMediaStatus.ACTIVE) } := by
  rcases hs with h | h <;>
    cases hv : r.persistVersionUri <;>
      simp [mongoUpdateFor, h, hv]

/-- Claim C4 counterexample: a FAILED post is reactivated by a usable
handler run that pushes no version at all — the run whose response has no
persistVersionUri still produces an update document whose only effect is
`$set { status: ACTIVE }`, leaving versions and versionCount untouched.
This falsifies the claim that reactivation never occurs without a
simultaneous successful version push. -/
theorem reactivation_without_version_push :
    failedPost.status = some SmartMediaStatus.FAILED ∧
    noVersionResponse.persistVersionUri = none ∧
    (handlePostUpdate 100 1000 (some failedPost) true false true
        (some noVersionResponse) false).dbUpdate
      = some { pushVersion := none
               setField := some (SetField.status SmartMediaStatus.ACTIVE) } ∧
    (applyUpdateDoc failedPost
        { pushVersion := none
          setField := some (SetField.status SmartMediaStatus.ACTIVE) }).status
      = some SmartMediaStatus.ACTIVE ∧
    (applyUpdateDoc failedPost
        { pushVersion := none
          setField := some (SetField.status SmartMediaStatus.ACTIVE) }).versions
      = failedPost.versions ∧
    (applyUpdateDoc failedPost
        { pushVersion := none
          setField := some (SetField.status SmartMediaStatus.ACTIVE) }).versionCount
      = failedPost.versionCount := by
  refine ⟨rfl, rfl, ?_, rfl, rfl, rfl⟩
  decide

/-- Claim C4 (amended): a handler run on a FAILED or DISABLED post resets
the status to ACTIVE whenever the run produces a usable handler result,
whether or not a version is pushed; the version push occurs exactly when
the response carries a persistVersionUri. -/
theorem handlePostUpdate_usable_run_reactivates (freezeTime now : Nat)
    (d : SmartMedia) (r : HandlerResponse) (refreshFails : Bool)
    (hs : d.status = some SmartMediaStatus.FAILED ∨
      d.status = some SmartMediaStatus.DISABLED)
    (hu : unusableResponse r = false) :
    (handlePostUpdate freezeTime now (some d) true false true (some r) refreshFails).dbUpdate
      = some { pushVersion := r.persistVersionUri
               setField := some (SetField.status SmartMediaStatus.ACTIVE) } := by
  rw [handlePostUpdate_usable_dbUpdate freezeTime now d r refreshFails hu]
  exact mongoUpdateFor_reactivates d r hs

/-- Claim C4 witness for the amended theorem, at the concrete FAILED post
and the concrete usable response without a version URI. -/
theorem handlePostUpdate_usable_run_reactivates_witness :
    (handlePostUpdate 100 1000 (some failedPost) true false true
        (some noVersionResponse) false).dbUpdate
      = some { pushVersion := noVersionResponse.persistVersionUri
               setField := some (SetField.status SmartMediaStatus.ACTIVE) } :=
  handlePostUpdate_usable_run_reactivates 100 1000 failedPost noVersionResponse false
    (Or.inl rfl) (by decide)

/-- Claim C5: an accepted content update on a FAILED post appends the new
version URI but leaves versionCount unchanged: the update document carries
the push together with only the status reset, because the
`update.$set = { status: ACTIVE }` assignment replaced the
`update.$set = { versionCount: old + 1 }` assignment.  In contrast the same
accepted update on an ACTIVE post increments versionCount by exactly 1 —
the count of versions and versionCount fall out of sync on reactivation. -/
theorem versionCount_lost_on_reactivation :
    failedPost.versionCount = some 3 ∧
    (handlePostUpdate 100 1000 (some failedPost) true false true
        (some versionResponse) false).dbUpdate
      = some { pushVersion := some "v4"
               setField := some (SetField.status SmartMediaStatus.ACTIVE) } ∧
    (applyUpdateDoc failedPost
        { pushVersion := some "v4"
          setField := some (SetField.status SmartMediaStatus.ACTIVE) }).versions
      = some ["v0", "v4"] ∧
    (applyUpdateDoc failedPost
        { pushVersion := some "v4"
          setField := some (SetField.status SmartMediaStatus.ACTIVE) }).versionCount
      = some 3 ∧
    (handlePostUpdate 100 1000 (some stalePost) true false true
        (some versionResponse) false).dbUpdate
      = some { pushVersion := some "v4"
               setField := some (SetField.versionCount 2) } ∧
    stalePost.versionCount = some 1 ∧
    (applyUpdateDoc stalePost
        { pushVersion := some "v4"
          setField := some (SetField.versionCount 2) }).versionCount = some 2 := by
  refine ⟨rfl, ?_, ?_, rfl, ?_, rfl, rfl⟩ <;> decide

/-- After k consecutive failed attempts the retry loop of
generateObjectDeprecated has produced no result (the real loop is still
running): the attempt count is unbounded. -/
theorem generateObjectLoop_all_failures {α : Type} (k d : Nat) :
    generateObjectLoop (List.replicate k (none : Option α)) d = none := by
  induction k generalizing d with
  | zero => rfl
  | succ n ih => simp [List.replicate_succ, generateObjectLoop, ih]

/-- When the first success comes at attempt k (0-based) the loop returns its
parsed object together with the waits performed after each of the k
failures: d, 2d, 4d, ..., doubling after every failure. -/
theorem generateObjectLoop_first_success {α : Type} (x : α) (rest : List (Option α)) :
    ∀ (k d : Nat),
      generateObjectLoop (List.replicate k none ++ some x :: rest) d =
        some (x, (List.range k).map (fun i => d * 2 ^ i)) := by
  intro k
  induction k with
  | zero => intro d; rfl
  | succ n ih =>
    intro d
    simp only [List.replicate_succ, List.cons_append, generateObjectLoop,
      List.append_eq, ih (d * 2)]
    refine congrArg (fun w => some (x, w)) ?_
    rw [List.range_succ_eq_map, List.map_cons, List.map_map]
    simp only [pow_zero, Nat.mul_one]
    refine congrArg (List.cons d) ?_
    refine List.map_congr_left fun i _ => ?_
    simp only [Function.comp_apply, pow_succ]
    ring

/-- With a nonempty context the early-null guard of generateObjectDeprecated
is not taken and the retry loop runs with an initial delay of 1000 ms. -/
theorem generateObjectDeprecated_of_nonempty {α : Type} (context : String)
    (messages : List String) (attempts : List (Option α)) (hc : context ≠ "") :
    generateObjectDeprecated context messages attempts =
      generateObjectLoop attempts 1000 := by
  unfold generateObjectDeprecated
  have h : ¬((context = "" && messages.length = 0 : Bool) = true) := by simp [hc]
  rw [if_neg h]

/-- Claim C6: for a nonempty context the structured-generation call retries
without bound, waiting retryDelay milliseconds after each failure with
retryDelay starting at 1000 and doubling each time: a call whose parse fails
exactly twice and succeeds on the third attempt returns the parsed object
after waits of 1000 ms and 2000 ms (total 3000 ms, at least 1000 + 2000);
in general the first success at attempt k yields waits 1000 * 2 ^ i for
i < k, and k straight failures leave the call still running for every k. -/
theorem generateObjectDeprecated_backoff {α : Type} (x : α) (rest : List (Option α))
    (context : String) (messages : List String) (hc : context ≠ "") :
    generateObjectDeprecated context messages ([none, none, some x] ++ rest) =
      some (x, [1000, 2000]) ∧
    (1000 + 2000 ≤ ([1000, 2000] : List Nat).sum) ∧
    (∀ k : Nat,
      generateObjectDeprecated context messages (List.replicate k none ++ some x :: rest) =
        some (x, (List.range k).map (fun i => 1000 * 2 ^ i))) ∧
    (∀ k : Nat,
      generateObjectDeprecated context messages (List.replicate k (none : Option α)) =
        none) := by
  refine ⟨?_, by simp, ?_, ?_⟩
  · rw [generateObjectDeprecated_of_nonempty context messages _ hc]
    have h2 := generateObjectLoop_first_success x rest 2 1000
    simpa [List.replicate] using h2
  · intro k
    rw [generateObjectDeprecated_of_nonempty context messages _ hc]
    exact generateObjectLoop_first_success x rest k 1000
  · intro k
    rw [generateObjectDeprecated_of_nonempty context messages _ hc]
    exact generateObjectLoop_all_failures k 1000

/-- Claim C6 witness: the concrete three-attempt run (two parse failures,
then success) and the never-terminating all-failure runs, at context "ctx"
and the parsed object 42. -/
theorem generateObjectDeprecated_backoff_witness :
    generateObjectDeprecated "ctx" [] ([none, none, some 42] ++ []) =
      some (42, [1000, 2000]) ∧
    generateObjectDeprecated "ctx" [] (List.replicate 5 (none : Option Nat)) = none := by
  have h := generateObjectDeprecated_backoff 42 ([] : List (Option Nat)) "ctx" []
    (by decide)
  exact ⟨h.1, h.2.2.2 5⟩

/-- Claim C7: the image generation phase of the bonsaiGarden handler makes
at most MAX_ATTEMPTS = 2 generateImage calls; when the first call succeeds
only one call is made, and when both allowed calls fail the handler makes
exactly 2 calls and then throws, so it yields no handler result instead of
retrying further. -/
theorem bonsaiGarden_image_attempts_bounded (callSucceeds : Nat → Bool) :
    (bonsaiGardenImagePhase callSucceeds).1 ≤ 2 ∧
    (callSucceeds 0 = true → bonsaiGardenImagePhase callSucceeds = (1, true)) ∧
    (callSucceeds 0 = false → callSucceeds 1 = false →
      bonsaiGardenImagePhase callSucceeds = (2, false) ∧
      bonsaiGardenImageResult callSucceeds = none) := by
  refine ⟨?_, ?_, ?_⟩
  · by_cases h0 : callSucceeds 0 = true
    · simp [bonsaiGardenImagePhase, MAX_ATTEMPTS, imageGenLoop, h0]
    · by_cases h1 : callSucceeds 1 = true <;>
        simp_all [bonsaiGardenImagePhase, MAX_ATTEMPTS, imageGenLoop]
  · intro h0
    simp [bonsaiGardenImagePhase, MAX_ATTEMPTS, imageGenLoop, h0]
  · intro h0 h1
    constructor <;>
      simp [bonsaiGardenImagePhase, bonsaiGardenImageResult, MAX_ATTEMPTS,
        imageGenLoop, h0, h1]

/-- Claim C7 witness: with both calls failing, exactly two calls are made
and no handler result is produced; with an immediately succeeding call, one
call is made. -/
theorem bonsaiGarden_image_attempts_bounded_witness :
    bonsaiGardenImagePhase (fun _ => false) = (2, false) ∧
    bonsaiGardenImageResult (fun _ => false) = none ∧
    bonsaiGardenImagePhase (fun _ => true) = (1, true) :=
  ⟨((bonsaiGarden_image_attempts_bounded (fun _ => false)).2.2 rfl rfl).1,
   ((bonsaiGarden_image_attempts_bounded (fun _ => false)).2.2 rfl rfl).2,
   (bonsaiGarden_image_attempts_bounded (fun _ => true)).2.1 rfl⟩

/-- Membership in the lodash-style deduplication is membership in the
original list. -/
theorem mem_uniqJs (a : String) : ∀ (l : List String), a ∈ uniqJs l ↔ a ∈ l := by
  intro l
  induction l using uniqJs.induct with
  | case1 => simp [uniqJs]
  | case2 x xs ih =>
    rw [uniqJs]
    simp only [List.mem_cons, ih, List.mem_filter, decide_eq_true_eq]
    constructor
    · rintro (h | ⟨h1, h2⟩)
      · exact Or.inl h
      · exact Or.inr h1
    · rintro (h | h)
      · exact Or.inl h
      · by_cases hax : a = x
        · exact Or.inl hax
        · exact Or.inr ⟨h, hax⟩

/-- The lodash-style deduplication has no duplicates. -/
theorem nodup_uniqJs : ∀ (l : List String), (uniqJs l).Nodup := by
  intro l
  induction l using uniqJs.induct with
  | case1 => rw [uniqJs]; exact List.nodup_nil
  | case2 x xs ih =>
    rw [uniqJs]
    refine List.nodup_cons.mpr ⟨?_, ih⟩
    rw [mem_uniqJs]
    simp

/-- The qualifying voter list has no duplicates. -/
theorem nodup_qualifyingVoters (collectors : List String) (c : Comment) :
    (qualifyingVoters collectors c).Nodup :=
  (nodup_uniqJs _).filter _

/-- The qualifying voter list of the code enumerates exactly the qualifying
voter set of the spec: the author together with the distinct up-voters,
restricted to collectors. -/
theorem toFinset_qualifyingVoters (collectors : List String) (c : Comment) :
    (qualifyingVoters collectors c).toFinset = qualifyingVoterSet collectors c := by
  ext a
  simp only [qualifyingVoters, qualifyingVoterSet, List.mem_toFinset, List.mem_filter,
    mem_uniqJs, List.mem_append, List.mem_singleton, Finset.mem_inter, Finset.mem_insert,
    List.elem_iff]
  tauto

/-- Folding the vote-weight accumulation equals adding the summed mapped
weights. -/
theorem foldl_weight_sum (w : Nat → Nat) :
    ∀ (l : List Nat) (a : Nat),
      l.foldl (fun acc b => acc + w b) a = a + (l.map w).sum := by
  intro l
  induction l with
  | nil => intro a; simp
  | cons b bs ih =>
    intro a
    simp only [List.foldl_cons, List.map_cons, List.sum_cons, ih (a + w b)]
    omega

/-- Descending comparison on vote weights: the relation the stable sort
maintains. -/
def votesGE (a b : WeightedComment) : Prop := b.votes ≤ a.votes

/-- Membership through the insertion step of the descending sort. -/
theorem mem_insertByVotesDesc (a x : WeightedComment) :
    ∀ (l : List WeightedComment), a ∈ insertByVotesDesc x l ↔ a = x ∨ a ∈ l := by
  intro l
  induction l with
  | nil => simp [insertByVotesDesc]
  | cons y ys ih =>
    rw [insertByVotesDesc]
    by_cases h : y.votes ≤ x.votes
    · rw [if_pos h]
      simp only [List.mem_cons]
    · rw [if_neg h]
      simp only [List.mem_cons, ih]
      tauto

/-- The insertion step preserves descending sortedness. -/
theorem sorted_insertByVotesDesc (x : WeightedComment) :
    ∀ (l : List WeightedComment), l.Sorted votesGE →
      (insertByVotesDesc x l).Sorted votesGE := by
  intro l
  induction l with
  | nil => intro _; simp [insertByVotesDesc]
  | cons y ys ih =>
    intro hs
    rcases List.sorted_cons.mp hs with ⟨hy, hys⟩
    rw [insertByVotesDesc]
    by_cases h : y.votes ≤ x.votes
    · rw [if_pos h]
      refine List.sorted_cons.mpr ⟨?_, hs⟩
      intro b hb
      rcases List.mem_cons.mp hb with rfl | hb
      · exact h
      · exact le_trans (hy b hb) h
    · rw [if_neg h]
      refine List.sorted_cons.mpr ⟨?_, ih hys⟩
      intro b hb
      rcases (mem_insertByVotesDesc b x ys).mp hb with rfl | hb
      · exact le_of_not_le h
      · exact hy b hb

/-- The descending order is sorted by votes. -/
theorem sorted_orderByVotesDesc : ∀ (l : List WeightedComment),
    (orderByVotesDesc l).Sorted votesGE := by
  intro l
  induction l with
  | nil => exact List.sorted_nil
  | cons x xs ih => exact sorted_insertByVotesDesc x (orderByVotesDesc xs) ih

/-- The descending order holds exactly the original comments. -/
theorem mem_orderByVotesDesc (a : WeightedComment) :
    ∀ (l : List WeightedComment), a ∈ orderByVotesDesc l ↔ a ∈ l := by
  intro l
  induction l with
  | nil => simp [orderByVotesDesc]
  | cons x xs ih =>
    have hstep : orderByVotesDesc (x :: xs) = insertByVotesDesc x (orderByVotesDesc xs) :=
      rfl
    rw [hstep, mem_insertByVotesDesc, ih, List.mem_cons]

/-- The top element of the descending order is a listed comment of greatest
weight. -/
theorem topComment_spec (l : List WeightedComment) (t : WeightedComment)
    (ht : topComment l = some t) : t ∈ l ∧ ∀ x ∈ l, x.votes ≤ t.votes := by
  unfold topComment at ht
  cases hord : orderByVotesDesc l with
  | nil => rw [hord] at ht; simp at ht
  | cons c rest =>
    rw [hord] at ht
    simp only [List.head?_cons, Option.some.injEq] at ht
    subst ht
    constructor
    · exact (mem_orderByVotesDesc c l).mp (by rw [hord]; exact List.mem_cons_self c rest)
    · intro x hx
      have hx2 : x ∈ orderByVotesDesc l := (mem_orderByVotesDesc x l).mpr hx
      rw [hord] at hx2
      rcases List.mem_cons.mp hx2 with rfl | hx3
      · exact le_refl _
      · have hs := sorted_orderByVotesDesc l
        rw [hord] at hs
        exact (List.sorted_cons.mp hs).1 x hx3

/-- Claim C8: the vote weighting of the bonsaiGarden handler agrees with the
specification: the computed weight of every comment equals the count of its
qualifying voter set when no token is associated, and the sum of
getVoteWeightFromBalance over the balances of the qualifying voter set when
a token is present; a comment with an empty qualifying voter list weighs 0
(not an error) in either mode; and the handler top pick is a listed comment
whose weight is greatest (the descending order puts a maximal element
first). -/
theorem bonsaiGarden_vote_weighting (collectors : List String) (hasToken : Bool)
    (balanceOf : String → Nat) (getVoteWeightFromBalance : Nat → Nat) (c : Comment)
    (l : List WeightedComment) (t : WeightedComment) (ht : topComment l = some t) :
    (weighComment collectors hasToken balanceOf getVoteWeightFromBalance c).votes
      = weighCommentSpec collectors hasToken balanceOf getVoteWeightFromBalance c ∧
    (weighComment collectors hasToken balanceOf getVoteWeightFromBalance c).content
      = c.content ∧
    (qualifyingVoters collectors c = [] →
      (weighComment collectors hasToken balanceOf getVoteWeightFromBalance c).votes = 0) ∧
    (t ∈ l ∧ ∀ x ∈ l, x.votes ≤ t.votes) := by
  refine ⟨?_, ?_, ?_, ?_⟩
  · cases hasToken with
    | false =>
      simp only [weighComment, weighCommentSpec, Bool.not_false, if_true,
        ← toFinset_qualifyingVoters]
      exact (List.toFinset_card_of_nodup (nodup_qualifyingVoters collectors c)).symm
    | true =>
      simp only [weighComment, weighCommentSpec, Bool.not_true, if_false,
        ← toFinset_qualifyingVoters]
      rw [foldl_weight_sum, Nat.zero_add,
        List.sum_toFinset _ (nodup_qualifyingVoters collectors c), List.map_map]
      rfl
  · cases hasToken <;> rfl
  · intro h
    cases hasToken <;> simp [weighComment, h]
  · exact topComment_spec l t ht

/-- Claim C8 witness: the comment authored by "a" with up-voters
["b", "a", "c"] against collectors ["a", "b"] (count mode), and the weighted
list [(A, 3), (B, 5)], whose top pick is (B, 5): the comment of greatest
weight. -/
theorem bonsaiGarden_vote_weighting_witness :
    (weighComment ["a", "b"] false (fun _ => 0) (fun _ => 0)
        { author := "a", upvoters := ["b", "a", "c"], content := "hi" }).votes
      = weighCommentSpec ["a", "b"] false (fun _ => 0) (fun _ => 0)
        { author := "a", upvoters := ["b", "a", "c"], content := "hi" } ∧
    ({ content := "B", votes := 5 } : WeightedComment) ∈
      [({ content := "A", votes := 3 } : WeightedComment), { content := "B", votes := 5 }] ∧
    ∀ x ∈ [({ content := "A", votes := 3 } : WeightedComment), { content := "B", votes := 5 }],
      x.votes ≤ ({ content := "B", votes := 5 } : WeightedComment).votes := by
  have h := bonsaiGarden_vote_weighting ["a", "b"] false (fun _ => 0) (fun _ => 0)
    { author := "a", upvoters := ["b", "a", "c"], content := "hi" }
    [{ content := "A", votes := 3 }, { content := "B", votes := 5 }]
    { content := "B", votes := 5 } (by decide)
  exact ⟨h.1, h.2.2.2.1, h.2.2.2.2⟩

/-- Claim C9: context fitting.  With the tokenizer working, a context whose
token count is at most maxTokens is returned unchanged, and a longer context
is re-decoded from exactly the last maxTokens tokens (the leading tokens are
discarded and the retained slice has length exactly maxTokens); when
tokenization throws, trimTokens returns the last maxTokens * 4 characters of
the context (a suffix of the context of length min (maxTokens * 4)
(length of the context)). -/
theorem trimTokens_spec (encFor : String → Option Encoding)
    (tokenizerModel tokenizerType : Option String) (context : String) (maxTokens : Nat)
    (hc : context ≠ "") (hm : 0 < maxTokens) :
    (∀ e : Encoding, encFor (tiktokenModelFor tokenizerModel tokenizerType) = some e →
      ((e.encode context).length ≤ maxTokens →
        trimTokens encFor tokenizerModel tokenizerType context maxTokens =
          Except.ok context) ∧
      (maxTokens < (e.encode context).length →
        trimTokens encFor tokenizerModel tokenizerType context maxTokens =
          Except.ok (e.decode
            ((e.encode context).drop ((e.encode context).length - maxTokens))) ∧
        ((e.encode context).drop ((e.encode context).length - maxTokens)).length
          = maxTokens)) ∧
    (encFor (tiktokenModelFor tokenizerModel tokenizerType) = none →
      trimTokens encFor tokenizerModel tokenizerType context maxTokens =
        Except.ok (jsSliceLast context (maxTokens * 4)) ∧
      (jsSliceLast context (maxTokens * 4)).data =
        context.data.drop (context.data.length - maxTokens * 4) ∧
      (jsSliceLast context (maxTokens * 4)).data.length =
        min (maxTokens * 4) context.data.length ∧
      context.data.take (context.data.length - maxTokens * 4) ++
        (jsSliceLast context (maxTokens * 4)).data = context.data) := by
  have h1 : trimTokens encFor tokenizerModel tokenizerType context maxTokens =
      Except.ok (truncateTiktoken (encFor (tiktokenModelFor tokenizerModel tokenizerType))
        context maxTokens) := by
    unfold trimTokens
    rw [if_neg hc, if_neg (Nat.pos_iff_ne_zero.mp hm)]
  constructor
  · intro e he
    constructor
    · intro hle
      rw [h1, he]
      simp only [truncateTiktoken]
      rw [if_pos hle]
    · intro hlt
      constructor
      · rw [h1, he]
        simp only [truncateTiktoken]
        rw [if_neg (not_le.mpr hlt)]
      · rw [List.length_drop]
        omega
  · intro he
    refine ⟨?_, rfl, ?_, ?_⟩
    · rw [h1, he]
      rfl
    · show (context.data.drop (context.data.length - maxTokens * 4)).length = _
      rw [List.length_drop]
      omega
    · exact List.take_append_drop _ _

/-- A concrete tokenizer for evaluation: one token per character. -/
def charEncoding : Encoding :=
  { encode := fun s => s.data.map (fun _ => 0)
    decode := fun l => String.mk (l.map (fun _ => Char.ofNat 120)) }

/-- Claim C9 witness: a 6-character context trimmed to 3 tokens under the
per-character tokenizer, and the character fallback when the tokenizer
throws. -/
theorem trimTokens_spec_witness :
    trimTokens (fun _ => some charEncoding) none none "abcdef" 3 =
      Except.ok (charEncoding.decode
        ((charEncoding.encode "abcdef").drop
          ((charEncoding.encode "abcdef").length - 3))) ∧
    trimTokens (fun _ => none) none none "abcdef" 1 =
      Except.ok (jsSliceLast "abcdef" 4) :=
  ⟨(((trimTokens_spec (fun _ => some charEncoding) none none "abcdef" 3
        (by decide) (by decide)).1 charEncoding rfl).2 (by decide)).1,
   ((trimTokens_spec (fun _ => none) none none "abcdef" 1
        (by decide) (by decide)).2 rfl).1⟩

/-- Claim C10: generateImage is a total function of its inputs (the Lean
embedding is total by construction, mirroring how every throw inside the
source is caught and converted into a return value): every run with
success = false carries an error and no data; a run with success = true can
only come from a Venice images array with no empty entry, and its data is
that array with each base64 string prefixed into a png data URI; and each
enumerated failure path (missing model settings, missing VENICE_API_KEY,
fetch error, unparseable response, malformed response, empty image string)
yields success = false. -/
theorem generateImage_total_shape (modelSettings apiKey : Option String)
    (outcome : VeniceOutcome) :
    ((generateImage modelSettings apiKey outcome).success = false →
      (generateImage modelSettings apiKey outcome).error.isSome = true ∧
      (generateImage modelSettings apiKey outcome).data = none) ∧
    ((generateImage modelSettings apiKey outcome).success = true →
      ∃ l : List String, outcome = VeniceOutcome.images l ∧ (∀ b ∈ l, b ≠ "") ∧
        (generateImage modelSettings apiKey outcome).data =
          some (l.map (fun b => "data:image/png;base64," ++ b)) ∧
        (generateImage modelSettings apiKey outcome).error = none) ∧
    ((modelSettings = none ∨ apiKey = none ∨ outcome = VeniceOutcome.jsonThrew ∨
        outcome = VeniceOutcome.noImagesArray ∨
        (∃ e, outcome = VeniceOutcome.fetchThrew e) ∨
        (∃ l, outcome = VeniceOutcome.images l ∧ "" ∈ l)) →
      (generateImage modelSettings apiKey outcome).success = false) := by
  rcases modelSettings with _ | m
  · exact ⟨fun _ => ⟨rfl, rfl⟩, fun h => by simp [generateImage] at h, fun _ => rfl⟩
  rcases apiKey with _ | k
  · exact ⟨fun _ => ⟨rfl, rfl⟩, fun h => by simp [generateImage] at h, fun _ => rfl⟩
  rcases outcome with e | _ | _ | l
  · exact ⟨fun _ => ⟨rfl, rfl⟩, fun h => by simp [generateImage] at h, fun _ => rfl⟩
  · exact ⟨fun _ => ⟨rfl, rfl⟩, fun h => by simp [generateImage] at h, fun _ => rfl⟩
  · exact ⟨fun _ => ⟨rfl, rfl⟩, fun h => by simp [generateImage] at h, fun _ => rfl⟩
  · by_cases hl : "" ∈ l
    · refine ⟨?_, ?_, ?_⟩
      · intro _
        exact ⟨by simp [generateImage, hl], by simp [generateImage, hl]⟩
      · intro h
        simp [generateImage, hl] at h
      · intro _
        simp [generateImage, hl]
    · refine ⟨?_, ?_, ?_⟩
      · intro h
        simp [generateImage, hl] at h
      · intro _
        refine ⟨l, rfl, ?_, ?_, ?_⟩
        · intro b hb hbe
          exact hl (hbe ▸ hb)
        · simp [generateImage, hl]
        · simp [generateImage, hl]
      · rintro (h | h | h | h | ⟨e, h⟩ | ⟨l2, h, hmem⟩)
        · exact absurd h (by simp)
        · exact absurd h (by simp)
        · exact absurd h (by simp)
        · exact absurd h (by simp)
        · exact absurd h (by simp)
        · cases h
          exact absurd hmem hl

/-- Claim C10 witness: the missing-settings failure carries an error with no
data, and the successful run on the images array ["abc"] yields the prefixed
data URIs with no error. -/
theorem generateImage_total_shape_witness :
    ((generateImage none none VeniceOutcome.jsonThrew).error.isSome = true ∧
      (generateImage none none VeniceOutcome.jsonThrew).data = none) ∧
    (∃ l : List String, VeniceOutcome.images ["abc"] = VeniceOutcome.images l ∧
      (∀ b ∈ l, b ≠ "") ∧
      (generateImage (some "m") (some "k") (VeniceOutcome.images ["abc"])).data =
        some (l.map (fun b => "data:image/png;base64," ++ b)) ∧
      (generateImage (some "m") (some "k") (VeniceOutcome.images ["abc"])).error = none) :=
  ⟨(generateImage_total_shape none none VeniceOutcome.jsonThrew).1 rfl,
   (generateImage_total_shape (some "m") (some "k")
       (VeniceOutcome.images ["abc"])).2.1 (by decide)⟩

end Bonsai
